import Mathlib

/-!
Verification development for the Narwal vacuum protocol client
(`narwal_client` / `custom_components/narwal`).

The Python sources are shallowly embedded:

* Bytes are modelled as `List Nat` (each entry a byte value).
* A Python string is modelled by its UTF-8 byte sequence where the code
  only moves it around (`protocol.py` topics): UTF-8 encoding is injective,
  so equality of encodings coincides with equality of the Python strings.
* Values produced by the schema-free protobuf decoder (blackboxprotobuf)
  are modelled by the inductive `PValue` (int, float, bool, str, bytes,
  list, dict, None); dicts are association lists.  A Python float is a
  finite binary64 value (an exact rational), an infinity, or a NaN, and
  `int()` on an infinity raises `OverflowError` — an error class the
  `except (ValueError, TypeError)` guards in the sources do not catch.
* Exceptions are explicit: a state-mutating method returns the (possibly
  partially) updated state together with `Option PyErr`, mirroring
  Python's in-place mutation that keeps earlier writes when a later
  statement raises.
* Python `time.monotonic()` instants and float durations are modelled as
  rationals; IEEE-754 float32 bit patterns are decoded to exact rationals
  (infinities/NaN marked separately).

There are two copies of the state model in the repository:
`src/narwal_client/models.py` (the standalone library, richer) and
`src/custom_components/narwal/narwal_client/models.py` (the copy vendored
into the Home Assistant integration, older).  Definitions for the vendored
copy carry the suffix `CC`.
-/

set_option maxRecDepth 100000

namespace Narwal

/-! ## Frame codec — `custom_components/narwal/narwal_client/protocol.py` -/

/-- Byte 0 of every frame (`const.py`: `FRAME_TYPE_BYTE = 0x01`). -/
def FRAME_TYPE_BYTE : Nat := 0x01

/-- Field-4 wire marker (`const.py`: `PROTOBUF_FIELD_TAG = 0x22`). -/
def PROTOBUF_FIELD_TAG : Nat := 0x22

/-- Field-5 wire marker (`protocol.py`: `PROTOBUF_FIELD5_TAG = 0x2A`). -/
def PROTOBUF_FIELD5_TAG : Nat := 0x2A

/-- Reasons `parse_frame` raises `ProtocolError`, in source order. -/
inductive ProtoErr where
  | shortFrame
  | badFrameType
  | badFieldTag
  | truncated
  | badUtf8
  deriving DecidableEq, Repr

/-- Reasons `build_frame` raises `ValueError`. -/
inductive BuildErr where
  | emptyTopic
  | topicTooLong
  deriving DecidableEq, Repr

/-- A parsed frame (`protocol.py` dataclass `NarwalMessage`); the topic is
represented by its UTF-8 byte sequence. -/
structure NarwalMessage where
  topic : List Nat
  payload : List Nat
  header_byte : Nat
  field_tag : Nat
  raw : List Nat
  deriving DecidableEq, Repr

/-- Continuation byte test for strict UTF-8 (0x80..0xBF). -/
def utf8Cont (b : Nat) : Bool := 0x80 ≤ b && b ≤ 0xBF

/-- Strict UTF-8 validity of a byte sequence, exactly the sequences that
Python's `bytes.decode("utf-8")` accepts (RFC 3629: no overlongs, no
surrogates, max U+10FFFF). -/
def isValidUtf8 : List Nat → Bool
  | [] => true
  | b :: rest =>
    if b ≤ 0x7F then isValidUtf8 rest
    else if b < 0xC2 then false
    else if b ≤ 0xDF then
      match rest with
      | c1 :: r => utf8Cont c1 && isValidUtf8 r
      | [] => false
    else if b ≤ 0xEF then
      match rest with
      | c1 :: c2 :: r =>
        (if b = 0xE0 then 0xA0 ≤ c1 && c1 ≤ 0xBF
         else if b = 0xED then 0x80 ≤ c1 && c1 ≤ 0x9F
         else utf8Cont c1) && utf8Cont c2 && isValidUtf8 r
      | _ => false
    else if b ≤ 0xF4 then
      match rest with
      | c1 :: c2 :: c3 :: r =>
        (if b = 0xF0 then 0x90 ≤ c1 && c1 ≤ 0xBF
         else if b = 0xF4 then 0x80 ≤ c1 && c1 ≤ 0x8F
         else utf8Cont c1) && utf8Cont c2 && utf8Cont c3 && isValidUtf8 r
      | _ => false
    else false

/-- Embedding of `protocol.py::parse_frame` (lines 49-92).  Checks appear
in source order: short frame, frame-type byte, field-marker byte, topic
truncation, UTF-8 validity of the topic bytes. -/
def parseFrame (data : List Nat) : Except ProtoErr NarwalMessage :=
  match data with
  | b0 :: b1 :: b2 :: b3 :: rest =>
    if b0 ≠ FRAME_TYPE_BYTE then .error .badFrameType
    else if b2 ≠ PROTOBUF_FIELD_TAG && b2 ≠ PROTOBUF_FIELD5_TAG then .error .badFieldTag
    else if rest.length < b3 then .error .truncated
    else if ¬ isValidUtf8 (rest.take b3) then .error .badUtf8
    else .ok ⟨rest.take b3, rest.drop b3, b1, b2, data⟩
  | _ => .error .shortFrame

/-- Embedding of `protocol.py::build_frame` (lines 95-129).  `topicBytes`
is the UTF-8 encoding of the Python topic string.  When no header byte is
given it is auto-computed as `len(topic) + 2`; either way the appended
byte is masked with `& 0xFF` as in the source (`frame.append(header_byte
& 0xFF)`). -/
def buildFrame (topicBytes payload : List Nat) (headerByte : Option Nat) :
    Except BuildErr (List Nat) :=
  if topicBytes.length = 0 then .error .emptyTopic
  else if 255 < topicBytes.length then .error .topicTooLong
  else
    let hb := (headerByte.getD (topicBytes.length + 2)) % 256
    .ok (FRAME_TYPE_BYTE :: hb :: PROTOBUF_FIELD_TAG :: topicBytes.length ::
      (topicBytes ++ payload))

/-! ## Schema-free decoded values and Python semantics

`blackboxprotobuf.decode_message` yields a dict from string field-number
keys to ints, floats, bools, strings, bytes, nested dicts and lists.
`PValue` models that universe.  A Python float (binary64) is a finite
value — an exact rational — or an infinity or NaN; `_to_float32`'s
docstring and `test_battery_field2_as_python_float` confirm the decoder
does hand floats to this code, and infinities matter because
`int(float("inf"))` raises `OverflowError`, which the
`except (ValueError, TypeError)` guards in `models.py` and
`send_command` do not catch. -/

/-- A Python float: a finite binary64 value (as an exact rational — every
finite binary64 is rational), a signed infinity, or a NaN. -/
inductive PFloat where
  | finite (q : ℚ)
  | inf (neg : Bool)
  | nan
  deriving DecidableEq

inductive PValue where
  | pint (n : Int)
  | pfloat (f : PFloat)
  | pbool (b : Bool)
  | pstr (s : String)
  | pbytes (bs : List Nat)
  | plist (xs : List PValue)
  | pdict (xs : List (String × PValue))
  | pnone

/-- A decoded protobuf mapping: association list with string keys. -/
abbrev PDict := List (String × PValue)

/-- Python `d.get(k)` / `k in d` lookup on a decoded mapping. -/
def pget (d : PDict) (k : String) : Option PValue :=
  (d.find? (fun kv => kv.1 = k)).map (fun kv => kv.2)

/-- Exception classes raised by the embedded code paths. -/
inductive PyErr where
  | valueError
  | typeError
  | overflowError
  | attributeError
  deriving DecidableEq, Repr

/-- Whether an exception class is caught by the
`except (ValueError, TypeError)` handlers used throughout `models.py`
and `client.py`; `OverflowError` is not. -/
def intCaught : PyErr → Bool
  | .valueError => true
  | .typeError => true
  | _ => false

/-- Python truthiness (`bool(x)`) on decoded values (`bool(float)` is
false only for ±0.0; infinities and NaN are truthy). -/
def truthy : PValue → Bool
  | .pint n => n ≠ 0
  | .pfloat (.finite q) => q ≠ 0
  | .pfloat _ => true
  | .pbool b => b
  | .pstr s => ¬ s.isEmpty
  | .pbytes bs => ¬ bs.isEmpty
  | .plist xs => ¬ xs.isEmpty
  | .pdict xs => ¬ xs.isEmpty
  | .pnone => false

/-- Digit-run parser for Python `int(str)`: digits with single
underscores allowed between digits. -/
def parseDigits : Nat → List Nat → Option Nat
  | acc, [] => some acc
  | acc, c :: cs =>
    if 48 ≤ c ∧ c ≤ 57 then parseDigits (acc * 10 + (c - 48)) cs
    else if c = 95 then
      match cs with
      | d :: cs2 =>
        if 48 ≤ d ∧ d ≤ 57 then parseDigits (acc * 10 + (d - 48)) cs2 else none
      | [] => none
    else none

/-- ASCII whitespace stripped by Python `int(str)`. -/
def isPySpace (c : Nat) : Bool := c = 32 || (9 ≤ c && c ≤ 13)

/-- Integer-literal parser over ASCII character codes, following Python
`int()` on `str`/`bytes`: optional surrounding whitespace, optional
sign, then digits with single `_` separators.  (Non-ASCII digit
alphabets, which CPython also accepts, never occur in this protocol.) -/
def parseIntAscii (cs : List Nat) : Option Int :=
  let cs := (cs.dropWhile isPySpace).reverse.dropWhile isPySpace |>.reverse
  match cs with
  | 43 :: d :: rest =>
    if 48 ≤ d ∧ d ≤ 57 then (parseDigits (d - 48) rest).map Int.ofNat else none
  | 45 :: d :: rest =>
    if 48 ≤ d ∧ d ≤ 57 then (parseDigits (d - 48) rest).map (fun n => -(n : Int))
    else none
  | d :: rest =>
    if 48 ≤ d ∧ d ≤ 57 then (parseDigits (d - 48) rest).map Int.ofNat else none
  | [] => none

/-- Outcome of a Python `int(x)` coercion. -/
inductive IntRes where
  | ok (n : Int)
  | err (e : PyErr)
  deriving DecidableEq, Repr

/-- Whether an `int(x)` coercion succeeded. -/
def IntRes.isOk : IntRes → Bool
  | .ok _ => true
  | .err _ => false

/-- Truncation toward zero, the rounding Python `int(float)` uses. -/
def ratTrunc (q : ℚ) : Int :=
  if 0 ≤ q then Rat.floor q else -(Rat.floor (-q))

/-- Python `int(x)` on a decoded value: ints pass through, finite floats
truncate toward zero while `int(inf)` raises `OverflowError` and
`int(nan)` raises `ValueError`, bools coerce to 0/1, strings and bytes
are parsed as integer literals (`ValueError` on failure), everything
else is a `TypeError`. -/
def pyToInt : PValue → IntRes
  | .pint n => .ok n
  | .pfloat (.finite q) => .ok (ratTrunc q)
  | .pfloat (.inf _) => .err .overflowError
  | .pfloat .nan => .err .valueError
  | .pbool b => .ok (if b then 1 else 0)
  | .pstr s =>
    match parseIntAscii (s.toList.map Char.toNat) with
    | some n => .ok n
    | none => .err .valueError
  | .pbytes bs =>
    match parseIntAscii bs with
    | some n => .ok n
    | none => .err .valueError
  | .plist _ => .err .typeError
  | .pdict _ => .err .typeError
  | .pnone => .err .typeError

/-- The pattern `try: x = int(v) except (ValueError, TypeError): x =
dflt`: a caught failure yields the default, an `OverflowError`
propagates. -/
def pyIntCatching (v : PValue) (dflt : Int) : Except PyErr Int :=
  match pyToInt v with
  | .ok n => .ok n
  | .err e => if intCaught e then .ok dflt else .error e

/-- Whether an `Except` computation succeeded. -/
def exceptIsOk {α : Type _} : Except PyErr α → Bool
  | .ok _ => true
  | .error _ => false

/-- Result of `models.py::_to_float32` when it returns a float: a finite
value, an infinity, or a NaN (`round(inf)` raises `OverflowError`,
`round(nan)` raises `ValueError`). -/
inductive F32 where
  | finite (q : ℚ)
  | infin
  | nan
  deriving DecidableEq

/-- Value of an IEEE-754 binary32 bit pattern, exactly: every finite
binary32 value is the rational `±mag / 2 ^ 149`; exponent field 255
encodes an infinity (zero fraction) or a NaN. -/
def float32OfBits (bits : Nat) : F32 :=
  let n : Nat := bits % 2 ^ 32
  let e : Nat := (n / 2 ^ 23) % 256
  let f : Nat := n % 2 ^ 23
  let mag : Nat := if e = 0 then f else (2 ^ 23 + f) * 2 ^ (e - 1)
  if e = 255 then (if f = 0 then .infin else .nan)
  else if 2 ^ 31 ≤ n then .finite (-((mag : ℚ) / 2 ^ 149))
  else .finite ((mag : ℚ) / 2 ^ 149)

/-- Embedding of `models.py::_to_float32` (lines 30-45) on the decoded
universe: a float passes through unchanged (`isinstance(val, float)`
branch); an int (or bool, a Python int subclass) is reinterpreted as a
float32 bit pattern after `& 0xFFFFFFFF`; any other value yields `None`.
(`struct.error` is unreachable after the mask.) -/
def toFloat32 : PValue → Option F32
  | .pfloat (.finite q) => some (.finite q)
  | .pfloat (.inf _) => some .infin
  | .pfloat .nan => some .nan
  | .pint n => some (float32OfBits (n.emod (2 ^ 32)).toNat)
  | .pbool b => some (float32OfBits (if b then 1 else 0))
  | _ => none

/-- Python `round(q)` to an integer: round-half-to-even. -/
def pyRound (q : ℚ) : Int :=
  let fl := Rat.floor q
  let fr := q - (fl : ℚ)
  if fr < 1 / 2 then fl
  else if 1 / 2 < fr then fl + 1
  else if fl % 2 = 0 then fl else fl + 1

/-! ## Working status enum — `const.py::WorkingStatus` -/

/-- Robot working state (`const.py` lines 100-128): UNKNOWN=0, STANDBY=1,
CLEANING=4, CLEANING_ALT=5, DOCKED=10, CHARGED=14, ERROR=99. -/
inductive WorkingStatus where
  | unknown
  | standby
  | cleaning
  | cleaningAlt
  | docked
  | charged
  | error
  deriving DecidableEq, Repr

/-- Enum construction `WorkingStatus(n)`: `none` models the `ValueError` raised for a
non-member value. -/
def WorkingStatus.ofInt : Int → Option WorkingStatus
  | 0 => some .unknown
  | 1 => some .standby
  | 4 => some .cleaning
  | 5 => some .cleaningAlt
  | 10 => some .docked
  | 14 => some .charged
  | 99 => some .error
  | _ => none

/-! ## Device state — `src/narwal_client/models.py::NarwalState`

The embedding carries every field read or written by
`update_from_working_status`, `update_from_base_status` and the
`is_cleaning` / `is_docked` / `is_returning` properties.  Fields the
dataclass also has but which none of those touch (`firmware_version`,
`firmware_target`, `device_info`, `position`, `map_data`,
`map_display_data`, `download_status`, `upgrade_status_code`) are
omitted; they are untouched pass-through state for the methods under
study.  `session_id` stores the raw field-13 value: the Python string is
a fixed deterministic function of that value, so this finer-grained
representation is sound for the state equalities proved below. -/

structure NarwalState where
  working_status : WorkingStatus := .unknown
  battery_level : Int := 0
  battery_health : Int := 0
  session_id : PValue := .pstr ""
  timestamp : Int := 0
  cleaning_area : Int := 0
  cleaning_time : Int := 0
  is_paused : Bool := false
  dock_sub_state : Int := 0
  is_returning_to_dock : Bool := false
  dock_activity : Int := 0
  dock_presence : Int := 0
  dock_field11 : Int := 0
  dock_field47 : Int := 0
  raw_base_status : PValue := .pdict []
  raw_working_status : PValue := .pdict []

/-- Membership test `working_status in (CLEANING, CLEANING_ALT)`. -/
def inCleaningModes : WorkingStatus → Bool
  | .cleaning => true
  | .cleaningAlt => true
  | _ => false

/-- Membership test `working_status in (DOCKED, CHARGED)`. -/
def inDockModes : WorkingStatus → Bool
  | .docked => true
  | .charged => true
  | _ => false

/-- Property `NarwalState.is_cleaning` (library `models.py` lines
350-357): in a cleaning mode, not paused, not returning to dock. -/
def NarwalState.is_cleaning (s : NarwalState) : Bool :=
  inCleaningModes s.working_status && !s.is_paused && !s.is_returning_to_dock

/-- Property `NarwalState.is_docked` (library `models.py` lines 359-384):
DOCKED/CHARGED unconditionally; STANDBY when any of dock_sub_state=1,
dock_activity>0, field 11=2, field 47=3 (checked in that order, each an
early `return True`). -/
def NarwalState.is_docked (s : NarwalState) : Bool :=
  if inDockModes s.working_status then true
  else if s.working_status = .standby then
    decide (s.dock_sub_state = 1) || decide (0 < s.dock_activity) ||
      decide (s.dock_field11 = 2) || decide (s.dock_field47 = 3)
  else false

/-- Property `NarwalState.is_returning` (library `models.py` lines
386-403): the field-3.7 flag, or dock_sub_state=2 while the mode is not
DOCKED/CHARGED. -/
def NarwalState.is_returning (s : NarwalState) : Bool :=
  if s.is_returning_to_dock then true
  else if s.dock_sub_state = 2 && !inDockModes s.working_status then true
  else false

/-- The `WorkingStatus(int(field3["1"]))` computation with its
`except (ValueError, TypeError): UNKNOWN` handler; an `int()` failure
outside those classes (an infinite float) propagates. -/
def f3Status (f3 : PDict) : Except PyErr WorkingStatus :=
  match pget f3 "1" with
  | some v =>
    match pyToInt v with
    | .ok n => .ok ((WorkingStatus.ofInt n).getD .unknown)
    | .err e => if intCaught e then .ok .unknown else .error e
  | none => .ok .unknown

/-- Step for an unguarded `if k in decoded: field = int(decoded[k])`
assignment: a failed coercion raises and aborts the update, keeping the
writes made so far. -/
def intFieldStep (d : PDict) (k : String) (write : NarwalState → Int → NarwalState)
    (s : NarwalState) (next : NarwalState → NarwalState × Option PyErr) :
    NarwalState × Option PyErr :=
  match pget d k with
  | some v =>
    match pyToInt v with
    | .ok n => next (write s n)
    | .err e => (s, some e)
  | none => next s

/-- Fields 38 (battery health), 36 (timestamp) and 13 (session id) of
`update_from_base_status` (library `models.py` lines 492-504).  Fields
38 and 36 use unguarded `int()`; the session branch never raises. -/
def baseStatusTail (s : NarwalState) (d : PDict) : NarwalState × Option PyErr :=
  intFieldStep d "38" (fun s n => { s with battery_health := n }) s fun s =>
    intFieldStep d "36" (fun s n => { s with timestamp := n }) s fun s =>
      match pget d "13" with
      | some v => ({ s with session_id := v }, none)
      | none => (s, none)

/-- Battery field 2 of `update_from_base_status` (library `models.py`
lines 486-491) followed by the tail fields: `round` of a finite float
writes the battery level, while `round(inf)` raises `OverflowError` and
`round(nan)` raises `ValueError`, aborting the rest. -/
def baseStep2 (s : NarwalState) (d : PDict) : NarwalState × Option PyErr :=
  match pget d "2" with
  | some v =>
    match toFloat32 v with
    | some (.finite q) => baseStatusTail { s with battery_level := pyRound q } d
    | some .infin => (s, some .overflowError)
    | some .nan => (s, some .valueError)
    | none => baseStatusTail s d
  | none => baseStatusTail s d

/-- The field-3 block of `update_from_base_status` (library `models.py`
lines 460-485), writes in source order: working status (guarded), pause
and returning flags (`bool`, never raises), then dock sub-state,
activity and presence (each guarded).  An uncaught `int()` error inside
any guard aborts mid-block, keeping the earlier writes. -/
def baseStep3 (s : NarwalState) (d : PDict) : NarwalState × Option PyErr :=
  match pget d "3" with
  | some (.pdict f3) =>
    if (pget f3 "1").isSome then
      match f3Status f3 with
      | .error e => (s, some e)
      | .ok w =>
        let s :=
          { s with
            working_status := w
            is_paused := truthy ((pget f3 "2").getD .pnone)
            is_returning_to_dock := truthy ((pget f3 "7").getD .pnone) }
        match pyIntCatching ((pget f3 "10").getD (.pint 0)) 0 with
        | .error e => (s, some e)
        | .ok n10 =>
          let s := { s with dock_sub_state := n10 }
          match pyIntCatching ((pget f3 "12").getD (.pint 0)) 0 with
          | .error e => (s, some e)
          | .ok n12 =>
            let s := { s with dock_activity := n12 }
            match pyIntCatching ((pget f3 "3").getD (.pint 0)) 0 with
            | .error e => (s, some e)
            | .ok n3 => baseStep2 { s with dock_presence := n3 } d
    else baseStep2 s d
  | _ => baseStep2 s d

/-- Field 47 of `update_from_base_status` (library `models.py` lines
454-459, guarded `int()`). -/
def baseStep47 (s : NarwalState) (d : PDict) : NarwalState × Option PyErr :=
  match pget d "47" with
  | some v =>
    match pyIntCatching v 0 with
    | .ok n => baseStep3 { s with dock_field47 := n } d
    | .error e => (s, some e)
  | none => baseStep3 s d

/-- Embedding of `update_from_base_status` (library `models.py` lines
426-504).  Writes happen in source order — field 11, field 47, the
field-3 block, battery field 2, field 38, field 36, field 13 — and an
uncaught exception aborts the remaining writes while keeping the earlier
ones (Python mutates `self` in place).  The `except (ValueError,
TypeError)` guards let `OverflowError` (an infinite float under `int()`)
propagate.  Calling the method on a non-dict value still assigns
`raw_base_status` and then raises `AttributeError` at the first
`.get`. -/
def NarwalState.update_from_base_status (s0 : NarwalState) (decoded : PValue) :
    NarwalState × Option PyErr :=
  let s1 := { s0 with raw_base_status := decoded }
  match decoded with
  | .pdict d =>
    match pget d "11" with
    | some v =>
      match pyIntCatching v 0 with
      | .ok n => baseStep47 { s1 with dock_field11 := n } d
      | .error e => (s1, some e)
    | none => baseStep47 s1 d
  | _ => (s1, some .attributeError)

/-- Field 13 of `update_from_working_status` (cleaning area, unguarded
`int()`). -/
def workingStep13 (s : NarwalState) (d : PDict) : NarwalState × Option PyErr :=
  match pget d "13" with
  | some v =>
    match pyToInt v with
    | .ok n => ({ s with cleaning_area := n }, none)
    | .err e => (s, some e)
  | none => (s, none)

/-- Embedding of `update_from_working_status` (library `models.py` lines
405-424): field 3 (elapsed time; on a caught `ValueError`/`TypeError`
the handler is `pass` — no write — while an `OverflowError` propagates),
field 13 (area, unguarded `int()`), field 15 (explicitly ignored). -/
def NarwalState.update_from_working_status (s0 : NarwalState) (decoded : PValue) :
    NarwalState × Option PyErr :=
  let s1 := { s0 with raw_working_status := decoded }
  match decoded with
  | .pdict d =>
    match pget d "3" with
    | some v =>
      match pyToInt v with
      | .ok n => workingStep13 { s1 with cleaning_time := n } d
      | .err e => if intCaught e then workingStep13 s1 d else (s1, some e)
    | none => workingStep13 s1 d
  | _ => (s1, some .attributeError)

/-! ### Characterization of the update methods as payload-determined patches

Every value `update_from_base_status` writes is computed from the decoded
payload alone, never from the prior state, and an uncaught exception only
truncates the write sequence.  The method therefore factors as "compute
the set of writes (a patch) from the payload" followed by "apply the
patch"; this is proved as `update_base_char` and drives the idempotence
results. -/

/-- The writes `update_from_base_status` performs: `raw` is written
unconditionally, each other field only when its source field is present
(and reached before any exception). -/
structure BasePatch where
  raw : PValue
  f11 : Option Int := none
  f47 : Option Int := none
  ws : Option WorkingStatus := none
  paused : Option Bool := none
  returning : Option Bool := none
  subState : Option Int := none
  activity : Option Int := none
  presence : Option Int := none
  battery : Option Int := none
  health : Option Int := none
  tstamp : Option Int := none
  session : Option PValue := none

/-- Apply a `BasePatch`: overwrite exactly the recorded fields. -/
def applyBasePatch (s : NarwalState) (p : BasePatch) : NarwalState :=
  { s with
    raw_base_status := p.raw
    dock_field11 := p.f11.getD s.dock_field11
    dock_field47 := p.f47.getD s.dock_field47
    working_status := p.ws.getD s.working_status
    is_paused := p.paused.getD s.is_paused
    is_returning_to_dock := p.returning.getD s.is_returning_to_dock
    dock_sub_state := p.subState.getD s.dock_sub_state
    dock_activity := p.activity.getD s.dock_activity
    dock_presence := p.presence.getD s.dock_presence
    battery_level := p.battery.getD s.battery_level
    battery_health := p.health.getD s.battery_health
    timestamp := p.tstamp.getD s.timestamp
    session_id := p.session.getD s.session_id }

/-- Patch writes for fields 38, 36 and 13 (mirrors `baseStatusTail`). -/
def basePatchTail (p : BasePatch) (d : PDict) : BasePatch × Option PyErr :=
  match pget d "38" with
  | some v =>
    match pyToInt v with
    | .ok n =>
      let p := { p with health := some n }
      (match pget d "36" with
       | some v2 =>
         match pyToInt v2 with
         | .ok n2 =>
           let p := { p with tstamp := some n2 }
           (match pget d "13" with
            | some v3 => ({ p with session := some v3 }, none)
            | none => (p, none))
         | .err e => (p, some e)
       | none =>
         match pget d "13" with
         | some v3 => ({ p with session := some v3 }, none)
         | none => (p, none))
    | .err e => (p, some e)
  | none =>
    match pget d "36" with
    | some v2 =>
      match pyToInt v2 with
      | .ok n2 =>
        let p := { p with tstamp := some n2 }
        (match pget d "13" with
         | some v3 => ({ p with session := some v3 }, none)
         | none => (p, none))
      | .err e => (p, some e)
    | none =>
      match pget d "13" with
      | some v3 => ({ p with session := some v3 }, none)
      | none => (p, none)

/-- Patch writes for battery field 2 and the tail (mirrors
`baseStep2`). -/
def basePatchStep2 (p : BasePatch) (d : PDict) : BasePatch × Option PyErr :=
  match pget d "2" with
  | some v =>
    match toFloat32 v with
    | some (.finite q) => basePatchTail { p with battery := some (pyRound q) } d
    | some .infin => (p, some .overflowError)
    | some .nan => (p, some .valueError)
    | none => basePatchTail p d
  | none => basePatchTail p d

/-- Patch writes for the field-3 block (mirrors `baseStep3`). -/
def basePatchStep3 (p : BasePatch) (d : PDict) : BasePatch × Option PyErr :=
  match pget d "3" with
  | some (.pdict f3) =>
    if (pget f3 "1").isSome then
      match f3Status f3 with
      | .error e => (p, some e)
      | .ok w =>
        let p :=
          { p with
            ws := some w
            paused := some (truthy ((pget f3 "2").getD .pnone))
            returning := some (truthy ((pget f3 "7").getD .pnone)) }
        match pyIntCatching ((pget f3 "10").getD (.pint 0)) 0 with
        | .error e => (p, some e)
        | .ok n10 =>
          let p := { p with subState := some n10 }
          match pyIntCatching ((pget f3 "12").getD (.pint 0)) 0 with
          | .error e => (p, some e)
          | .ok n12 =>
            let p := { p with activity := some n12 }
            match pyIntCatching ((pget f3 "3").getD (.pint 0)) 0 with
            | .error e => (p, some e)
            | .ok n3 => basePatchStep2 { p with presence := some n3 } d
    else basePatchStep2 p d
  | _ => basePatchStep2 p d

/-- Patch writes for field 47 (mirrors `baseStep47`). -/
def basePatchStep47 (p : BasePatch) (d : PDict) : BasePatch × Option PyErr :=
  match pget d "47" with
  | some v =>
    match pyIntCatching v 0 with
    | .ok n => basePatchStep3 { p with f47 := some n } d
    | .error e => (p, some e)
  | none => basePatchStep3 p d

/-- The patch (and exception, if any) `update_from_base_status` computes
from a decoded payload. -/
def basePatch (v : PValue) : BasePatch × Option PyErr :=
  match v with
  | .pdict d =>
    match pget d "11" with
    | some w =>
      match pyIntCatching w 0 with
      | .ok n => basePatchStep47 { raw := v, f11 := some n } d
      | .error e => ({ raw := v }, some e)
    | none => basePatchStep47 { raw := v } d
  | _ => ({ raw := v }, some .attributeError)

/-- The writes `update_from_working_status` performs. -/
structure WorkingPatch where
  raw : PValue
  ctime : Option Int := none
  area : Option Int := none

/-- Apply a `WorkingPatch`. -/
def applyWorkingPatch (s : NarwalState) (p : WorkingPatch) : NarwalState :=
  { s with
    raw_working_status := p.raw
    cleaning_time := p.ctime.getD s.cleaning_time
    cleaning_area := p.area.getD s.cleaning_area }

/-- Patch writes for working-status field 13 (mirrors
`workingStep13`). -/
def workingPatchStep13 (p : WorkingPatch) (d : PDict) : WorkingPatch × Option PyErr :=
  match pget d "13" with
  | some w =>
    match pyToInt w with
    | .ok n => ({ p with area := some n }, none)
    | .err e => (p, some e)
  | none => (p, none)

/-- The patch (and exception, if any) `update_from_working_status`
computes from a decoded payload. -/
def workingPatch (v : PValue) : WorkingPatch × Option PyErr :=
  match v with
  | .pdict d =>
    match pget d "3" with
    | some w =>
      match pyToInt w with
      | .ok n => workingPatchStep13 { raw := v, ctime := some n } d
      | .err e =>
        if intCaught e then workingPatchStep13 { raw := v } d
        else ({ raw := v }, some e)
    | none => workingPatchStep13 { raw := v } d
  | _ => ({ raw := v }, some .attributeError)

/-! ## Vendored device state —
`src/custom_components/narwal/narwal_client/models.py::NarwalState`

The copy of the state model shipped inside the integration (suffix `CC`).
It predates the library version: no battery-health/returning-flag/dock
indicator fields, and `battery_level` is read from field 38 as a plain
int.  `is_returning_to_dock` is not declared by this dataclass but
`coordinator.py` line 266 assigns it dynamically, which Python permits;
it is carried here so the coordinator embedding can perform that write
(no vendored code reads it).  Fields unused by the embedded methods are
omitted as for the library version. -/

structure NarwalStateCC where
  working_status : WorkingStatus := .unknown
  battery_level : Int := 0
  session_id : PValue := .pstr ""
  timestamp : Int := 0
  cleaning_area : Int := 0
  cleaning_time : Int := 0
  is_paused : Bool := false
  dock_sub_state : Int := 0
  is_returning_to_dock : Bool := false
  raw_base_status : PValue := .pdict []
  raw_working_status : PValue := .pdict []

/-- Property `is_cleaning` (vendored `models.py` lines 298-300): cleaning
mode and not paused. -/
def NarwalStateCC.is_cleaning (s : NarwalStateCC) : Bool :=
  inCleaningModes s.working_status && !s.is_paused

/-- Property `is_docked` (vendored `models.py` lines 302-314):
DOCKED/CHARGED, or STANDBY with dock_sub_state=1. -/
def NarwalStateCC.is_docked (s : NarwalStateCC) : Bool :=
  if inDockModes s.working_status then true
  else if s.working_status = .standby && s.dock_sub_state = 1 then true
  else false

/-- Property `is_returning` (vendored `models.py` lines 316-326):
dock_sub_state=2 while not cleaning. -/
def NarwalStateCC.is_returning (s : NarwalStateCC) : Bool :=
  decide (s.dock_sub_state = 2) && !s.is_cleaning

/-- Fields 36 and 13 of the vendored `update_from_base_status`. -/
def ccBaseTail (s : NarwalStateCC) (d : PDict) : NarwalStateCC × Option PyErr :=
  match pget d "36" with
  | some v =>
    match pyToInt v with
    | .ok n =>
      let s := { s with timestamp := n }
      (match pget d "13" with
       | some v3 => ({ s with session_id := v3 }, none)
       | none => (s, none))
    | .err e => (s, some e)
  | none =>
    match pget d "13" with
    | some v3 => ({ s with session_id := v3 }, none)
    | none => (s, none)

/-- Field 38 (battery, unguarded `int()`) and the tail of the vendored
`update_from_base_status`. -/
def ccBaseStep38 (s : NarwalStateCC) (d : PDict) : NarwalStateCC × Option PyErr :=
  match pget d "38" with
  | some v =>
    match pyToInt v with
    | .ok n => ccBaseTail { s with battery_level := n } d
    | .err e => (s, some e)
  | none => ccBaseTail s d

/-- Embedding of the vendored `update_from_base_status` (lines 347-378):
the field-3 block — working status (guarded), pause overlay (`bool`,
never raises), dock sub-state (guarded) — then the unguarded `int()`
reads of fields 38 (battery) and 36 (timestamp), then the session id.
As in the library version, an `OverflowError` escapes the
`except (ValueError, TypeError)` guards and aborts the remaining
writes. -/
def NarwalStateCC.update_from_base_status (s0 : NarwalStateCC) (decoded : PValue) :
    NarwalStateCC × Option PyErr :=
  let s1 := { s0 with raw_base_status := decoded }
  match decoded with
  | .pdict d =>
    match pget d "3" with
    | some (.pdict f3) =>
      if (pget f3 "1").isSome then
        match f3Status f3 with
        | .error e => (s1, some e)
        | .ok w =>
          let s2 :=
            { s1 with
              working_status := w
              is_paused := truthy ((pget f3 "2").getD .pnone) }
          match pyIntCatching ((pget f3 "10").getD (.pint 0)) 0 with
          | .error e => (s2, some e)
          | .ok n10 => ccBaseStep38 { s2 with dock_sub_state := n10 } d
      else ccBaseStep38 s1 d
    | _ => ccBaseStep38 s1 d
  | _ => (s1, some .attributeError)

/-- Field 13 of the vendored `update_from_working_status` (unguarded
`int()`). -/
def ccWorkingStep13 (s : NarwalStateCC) (d : PDict) : NarwalStateCC × Option PyErr :=
  match pget d "13" with
  | some v =>
    match pyToInt v with
    | .ok n => ({ s with cleaning_area := n }, none)
    | .err e => (s, some e)
  | none => (s, none)

/-- Embedding of the vendored `update_from_working_status` (lines
328-345), identical in logic to the library version. -/
def NarwalStateCC.update_from_working_status (s0 : NarwalStateCC) (decoded : PValue) :
    NarwalStateCC × Option PyErr :=
  let s1 := { s0 with raw_working_status := decoded }
  match decoded with
  | .pdict d =>
    match pget d "3" with
    | some v =>
      match pyToInt v with
      | .ok n => ccWorkingStep13 { s1 with cleaning_time := n } d
      | .err e => if intCaught e then ccWorkingStep13 s1 d else (s1, some e)
    | none => ccWorkingStep13 s1 d
  | _ => (s1, some .attributeError)

/-- The writes the vendored `update_from_base_status` performs. -/
structure BasePatchCC where
  raw : PValue
  ws : Option WorkingStatus := none
  paused : Option Bool := none
  subState : Option Int := none
  battery : Option Int := none
  tstamp : Option Int := none
  session : Option PValue := none

/-- Apply a `BasePatchCC`. -/
def applyBasePatchCC (s : NarwalStateCC) (p : BasePatchCC) : NarwalStateCC :=
  { s with
    raw_base_status := p.raw
    working_status := p.ws.getD s.working_status
    is_paused := p.paused.getD s.is_paused
    dock_sub_state := p.subState.getD s.dock_sub_state
    battery_level := p.battery.getD s.battery_level
    timestamp := p.tstamp.getD s.timestamp
    session_id := p.session.getD s.session_id }

/-- Patch writes for fields 36 and 13 (vendored). -/
def ccBaseTailPatch (p : BasePatchCC) (d : PDict) : BasePatchCC × Option PyErr :=
  match pget d "36" with
  | some v =>
    match pyToInt v with
    | .ok n =>
      let p := { p with tstamp := some n }
      (match pget d "13" with
       | some v3 => ({ p with session := some v3 }, none)
       | none => (p, none))
    | .err e => (p, some e)
  | none =>
    match pget d "13" with
    | some v3 => ({ p with session := some v3 }, none)
    | none => (p, none)

/-- Patch writes for field 38 and the tail (mirrors `ccBaseStep38`). -/
def ccBasePatchStep38 (p : BasePatchCC) (d : PDict) : BasePatchCC × Option PyErr :=
  match pget d "38" with
  | some w =>
    match pyToInt w with
    | .ok n => ccBaseTailPatch { p with battery := some n } d
    | .err e => (p, some e)
  | none => ccBaseTailPatch p d

/-- The patch (and exception, if any) the vendored
`update_from_base_status` computes from a decoded payload. -/
def basePatchCC (v : PValue) : BasePatchCC × Option PyErr :=
  match v with
  | .pdict d =>
    match pget d "3" with
    | some (.pdict f3) =>
      if (pget f3 "1").isSome then
        match f3Status f3 with
        | .error e => ({ raw := v }, some e)
        | .ok w =>
          let p : BasePatchCC :=
            { raw := v
              ws := some w
              paused := some (truthy ((pget f3 "2").getD .pnone)) }
          match pyIntCatching ((pget f3 "10").getD (.pint 0)) 0 with
          | .error e => (p, some e)
          | .ok n10 => ccBasePatchStep38 { p with subState := some n10 } d
      else ccBasePatchStep38 { raw := v } d
    | _ => ccBasePatchStep38 { raw := v } d
  | _ => ({ raw := v }, some .attributeError)

/-! ## Command responses — `models.py::CommandResponse`,
`const.py::CommandResult`, `client.py::send_command` -/

/-- Constant `CommandResult.SUCCESS` (`const.py` line 95). -/
def CommandResult.SUCCESS : Int := 1

/-- Constant `CommandResult.NOT_APPLICABLE` (`const.py` line 96). -/
def CommandResult.NOT_APPLICABLE : Int := 2

/-- Constant `CommandResult.CONFLICT` (`const.py` line 97). -/
def CommandResult.CONFLICT : Int := 3

/-- Dataclass `CommandResponse` (vendored `models.py` lines 236-251 and
library lines 262-276, identical). -/
structure CommandResponse where
  result_code : Int := 0
  data : PDict := []
  raw_payload : List Nat := []

/-- Property `CommandResponse.success`: result code equals
`CommandResult.SUCCESS`. -/
def CommandResponse.success (r : CommandResponse) : Bool :=
  decide (r.result_code = CommandResult.SUCCESS)

/-- Property `CommandResponse.not_applicable`: result code equals
`CommandResult.NOT_APPLICABLE`. -/
def CommandResponse.not_applicable (r : CommandResponse) : Bool :=
  decide (r.result_code = CommandResult.NOT_APPLICABLE)

/-- Result-code extraction performed at the end of `send_command`
(custom_components `client.py` lines 648-660, library `client.py` lines
315-327, identical): field 1 of the decoded response (default 0) is
coerced with `int()`; a `ValueError`/`TypeError` yields result code 0;
an `OverflowError` (infinite float in field 1) is not caught and
propagates out of `send_command`; on success the whole decoded mapping
becomes `data`. -/
def extractCommandResponse (decoded : PDict) (payload : List Nat) :
    Except PyErr CommandResponse :=
  let raw1 := (pget decoded "1").getD (.pint 0)
  match pyToInt raw1 with
  | .ok n => .ok { result_code := n, data := decoded, raw_payload := payload }
  | .err e =>
    if intCaught e then
      .ok { result_code := 0, data := decoded, raw_payload := payload }
    else .error e

/-! ## Status query and coordinator —
`custom_components/narwal/narwal_client/client.py::get_status`,
`custom_components/narwal/coordinator.py`

The coordinator operates on the vendored client state (`NarwalStateCC`).
Transport, queueing and timing are outside the state model: a command
that produced a decoded response is represented by that decoded mapping,
a command that raised (timeout or otherwise) by `none`, and the
`robot_awake` flag by a boolean parameter fixed at the moment modelled. -/

/-- State effect of `get_status(full_update=True)` (custom_components
`client.py` lines 840-855): field 2 of the response data, when truthy,
is fed to `update_from_base_status`.  An exception escapes `get_status`
but the writes made before it are kept. -/
def getStatusFullApplyCC (s : NarwalStateCC) (respData : PDict) :
    NarwalStateCC × Option PyErr :=
  let statusData := (pget respData "2").getD (.pdict [])
  if truthy statusData then s.update_from_base_status statusData
  else (s, none)

/-- Constant `STALE_GUARD_SECONDS` (`coordinator.py` line 29). -/
def STALE_GUARD_SECONDS : ℚ := 120

/-- Constant `DOCK_BATTERY_THRESHOLD` (`coordinator.py` line 33). -/
def DOCK_BATTERY_THRESHOLD : Int := 95

/-- Constant `POLL_INTERVAL` in seconds (`coordinator.py` line 21). -/
def POLL_INTERVAL : ℚ := 60

/-- Constant `FAST_POLL_INTERVAL` in seconds (`coordinator.py` line 24). -/
def FAST_POLL_INTERVAL : ℚ := 10

/-- Observable coordinator state: the stale-broadcast guard deadline,
fast-poll counter, polling interval and last published device state. -/
structure CoordObs where
  staleGuardUntil : ℚ := 0
  fastPollRemaining : Nat := 0
  updateInterval : ℚ := POLL_INTERVAL
  published : Option NarwalStateCC := none

/-- The publish tail of `_on_state_update` (`coordinator.py` lines
170-184): publish the state, then drop out of fast polling if active. -/
def publishStep (c : CoordObs) (st : NarwalStateCC) : CoordObs :=
  let c1 := { c with published := some st }
  if 0 < c1.fastPollRemaining then
    { c1 with fastPollRemaining := 0, updateInterval := POLL_INTERVAL }
  else c1

/-- Embedding of `_on_state_update` (`coordinator.py` lines 153-184):
while the stale guard is armed and unexpired, the broadcast is dropped
and nothing changes; an expired guard is cleared and the update goes
through. -/
def onStateUpdate (c : CoordObs) (now : ℚ) (st : NarwalStateCC) : CoordObs :=
  if 0 < c.staleGuardUntil then
    if now < c.staleGuardUntil then c
    else publishStep { c with staleGuardUntil := 0 } st
  else publishStep c st

/-- Result of the deep-sleep correction. -/
structure FixOutcome where
  state : NarwalStateCC
  staleGuardUntil : ℚ
  issuedForceEnd : Bool

/-- Embedding of `_fix_deep_sleep_state` (`coordinator.py` lines
186-273).  `forceEnd` is the force-stop outcome (`none` = the call
raised); the source only logs it, so it does not influence the result.
`requery` is the decoded data of the follow-up `get_status(full_update=
True)` (`none` = the call raised); exceptions from the re-query are
swallowed (lines 243-246) but its earlier writes persist.  If the
re-queried mode is DOCKED/CHARGED the routine returns with the guard
untouched; otherwise it overrides the mode to DOCKED, clears the pause
and returning flags, and arms the stale guard for
`STALE_GUARD_SECONDS`. -/
def fixDeepSleepState (s : NarwalStateCC) (forceEnd : Option CommandResponse)
    (requery : Option PDict) (now guard0 : ℚ) : FixOutcome :=
  let issued := inCleaningModes s.working_status
  let _ := forceEnd
  let s1 :=
    match requery with
    | some rd => (getStatusFullApplyCC s rd).1
    | none => s
  if inDockModes s1.working_status then
    { state := s1, staleGuardUntil := guard0, issuedForceEnd := issued }
  else
    let s2 :=
      { s1 with
        working_status := WorkingStatus.docked
        is_paused := false
        is_returning_to_dock := false }
    { state := s2, staleGuardUntil := now + STALE_GUARD_SECONDS,
      issuedForceEnd := issued }

/-- Result of one polling round. -/
structure PollOutcome where
  state : NarwalStateCC
  staleGuardUntil : ℚ
  issuedForceEnd : Bool
  raisedUpdateFailed : Bool

/-- Embedding of the state-affecting core of `_async_update_data`
(`coordinator.py` lines 287-304): apply the full status query (an
exception raises `UpdateFailed`, line 291), then run the deep-sleep
correction when the robot is not broadcasting, battery is at or above
`DOCK_BATTERY_THRESHOLD`, and the mode is not DOCKED/CHARGED/UNKNOWN.
`awake` is `client.robot_awake` after the wake attempt of lines
283-285. -/
def pollCore (awake : Bool) (s : NarwalStateCC) (respData : PDict)
    (forceEnd : Option CommandResponse) (requery : Option PDict)
    (now guard0 : ℚ) : PollOutcome :=
  match getStatusFullApplyCC s respData with
  | (s1, some _) =>
    { state := s1, staleGuardUntil := guard0, issuedForceEnd := false,
      raisedUpdateFailed := true }
  | (s1, none) =>
    if !awake && decide (DOCK_BATTERY_THRESHOLD ≤ s1.battery_level) &&
        !inDockModes s1.working_status && !decide (s1.working_status = .unknown) then
      let fx := fixDeepSleepState s1 forceEnd requery now guard0
      { state := fx.state, staleGuardUntil := fx.staleGuardUntil,
        issuedForceEnd := fx.issuedForceEnd, raisedUpdateFailed := false }
    else
      { state := s1, staleGuardUntil := guard0, issuedForceEnd := false,
        raisedUpdateFailed := false }
/-! ## Inputs and side conditions used by the claim theorems -/

/-- Device state at client construction (all dataclass defaults). -/
def initState : NarwalState := {}

/-- Vendored device state at client construction. -/
def initStateCC : NarwalStateCC := {}

/-- Whether an optional decoded value coerces with `int()` (absent counts
as benign). -/
def intCoercibleOpt : Option PValue → Bool
  | some v => (pyToInt v).isOk
  | none => true

/-- Whether an optional decoded value passes a guarded `int()` without an
uncaught exception: the coercion succeeds, or fails with one of the
caught classes (`ValueError`/`TypeError`); an infinite float fails
this. -/
def guardedIntBenign : Option PValue → Bool
  | some v => exceptIsOk (pyIntCatching v 0)
  | none => true

/-- Whether the field-3 block of `update_from_base_status` raises no
uncaught exception: the guarded coercions of sub-fields 1, 10, 12 and 3
(the latter three defaulting to 0) all avoid `OverflowError`. -/
def f3Benign (d : PDict) : Bool :=
  match pget d "3" with
  | some (.pdict f3) =>
    if (pget f3 "1").isSome then
      exceptIsOk (f3Status f3) &&
        exceptIsOk (pyIntCatching ((pget f3 "10").getD (.pint 0)) 0) &&
        exceptIsOk (pyIntCatching ((pget f3 "12").getD (.pint 0)) 0) &&
        exceptIsOk (pyIntCatching ((pget f3 "3").getD (.pint 0)) 0)
    else true
  | _ => true

/-- Whether the battery field 2, if present, decodes to something
`round()` accepts: anything except an infinity or NaN float. -/
def field2Benign (d : PDict) : Bool :=
  match pget d "2" with
  | some v =>
    match toFloat32 v with
    | some .infin => false
    | some .nan => false
    | _ => true
  | none => true

/-- Payload condition under which `update_from_base_status` cannot raise:
the guarded `int()` reads (fields 11, 47 and the field-3 sub-fields)
avoid uncaught errors, the unguarded fields 38 and 36 are int-coercible
when present, and the battery field 2 is not an infinite/NaN float or
float32 bit pattern. -/
def baseStatusBenign (d : PDict) : Bool :=
  guardedIntBenign (pget d "11") && guardedIntBenign (pget d "47") &&
    f3Benign d && field2Benign d &&
    intCoercibleOpt (pget d "38") && intCoercibleOpt (pget d "36")

/-- Payload condition under which `update_from_working_status` cannot
raise: the guarded field 3 avoids uncaught errors and field 13 is
int-coercible when present. -/
def workingStatusBenign (d : PDict) : Bool :=
  guardedIntBenign (pget d "3") && intCoercibleOpt (pget d "13")

/-- Benign status payload exercising every guarded field (mode cleaning,
battery bits for 85.0, health 100, timestamp, numeric session id). -/
def c3WitnessPayload : PDict :=
  [("3", .pdict [("1", .pint 4)]), ("2", .pint 1118437376),
   ("38", .pint 100), ("36", .pint 5), ("13", .pstr "123")]

/-- Base-status payload reporting mode=CLEANING(4) with dock sub-state 2
(docking) and no returning flag — live shape minus field 3.7. -/
def c4FailingPayload : PValue := .pdict [("3", .pdict [("1", .pint 4), ("10", .pint 2)])]

/-- Base-status payload reporting STANDBY(1) with dock activity 2 and no
other dock signal. -/
def c5Payload : PValue := .pdict [("3", .pdict [("1", .pint 1), ("12", .pint 2)])]

/-- Base-status payload reporting STANDBY(1) with dock field 47 = 3. -/
def c5WPayload : PValue := .pdict [("3", .pdict [("1", .pint 1)]), ("47", .pint 3)]

/-- Broadcast payload: mode=DOCKED(10), dock sub-state 1, battery 80. -/
def c1BroadcastPayload : PValue :=
  .pdict [("3", .pdict [("1", .pint 10), ("10", .pint 1)]), ("38", .pint 80)]

/-- Poll response data: field 2 carries a stale base status claiming
mode=CLEANING(4) with fresh battery 85. -/
def c1PollRespData : PDict :=
  [("2", .pdict [("3", .pdict [("1", .pint 4)]), ("38", .pint 85)])]

/-- Poll response data: stale mode=CLEANING(4) with battery 100. -/
def c2RespData : PDict :=
  [("2", .pdict [("3", .pdict [("1", .pint 4)]), ("38", .pint 100)])]

/-! ## Patch characterizations and idempotence -/

set_option maxHeartbeats 2000000 in
/-- The library `update_from_base_status` equals its patch characterization. -/
theorem update_base_char (s : NarwalState) (v : PValue) :
    s.update_from_base_status v =
      (applyBasePatch s (basePatch v).1, (basePatch v).2) := by
  cases v
  case pdict d =>
    simp only [NarwalState.update_from_base_status, baseStep47, baseStep3,
      baseStep2, baseStatusTail, intFieldStep, basePatch, basePatchStep47,
      basePatchStep3, basePatchStep2, basePatchTail]
    repeat' split
    all_goals rfl
  all_goals rfl

/-- Overwriting with the value already obtained from the same patch is a
no-op. -/
theorem getD_twice {α : Type _} (o : Option α) (a : α) :
    o.getD (o.getD a) = o.getD a := by cases o <;> rfl

/-- Applying the same base patch twice equals applying it once. -/
theorem applyBasePatch_idem (s : NarwalState) (p : BasePatch) :
    applyBasePatch (applyBasePatch s p) p = applyBasePatch s p := by
  simp only [applyBasePatch, getD_twice]

/-- Idempotence of `update_from_base_status` (library version), including
the exceptional runs: the second application performs exactly the same
writes and raises at the same point. -/
theorem update_base_idem (s : NarwalState) (v : PValue) :
    (s.update_from_base_status v).1.update_from_base_status v =
      s.update_from_base_status v := by
  rw [update_base_char, update_base_char, applyBasePatch_idem]

/-- The library `update_from_working_status` equals its patch characterization. -/
theorem update_working_char (s : NarwalState) (v : PValue) :
    s.update_from_working_status v =
      (applyWorkingPatch s (workingPatch v).1, (workingPatch v).2) := by
  cases v
  case pdict d =>
    simp only [NarwalState.update_from_working_status, workingStep13,
      workingPatch, workingPatchStep13]
    repeat' split
    all_goals rfl
  all_goals rfl

/-- Applying the same working patch twice equals applying it once. -/
theorem applyWorkingPatch_idem (s : NarwalState) (p : WorkingPatch) :
    applyWorkingPatch (applyWorkingPatch s p) p = applyWorkingPatch s p := by
  simp only [applyWorkingPatch, getD_twice]

set_option maxHeartbeats 1000000 in
/-- The vendored `update_from_base_status` equals its patch
characterization. -/
theorem update_base_cc_char (s : NarwalStateCC) (v : PValue) :
    s.update_from_base_status v =
      (applyBasePatchCC s (basePatchCC v).1, (basePatchCC v).2) := by
  cases v
  case pdict d =>
    simp only [NarwalStateCC.update_from_base_status, ccBaseStep38, ccBaseTail,
      basePatchCC, ccBasePatchStep38, ccBaseTailPatch]
    repeat' split
    all_goals rfl
  all_goals rfl

/-- Applying the same vendored base patch twice equals applying it
once. -/
theorem applyBasePatchCC_idem (s : NarwalStateCC) (p : BasePatchCC) :
    applyBasePatchCC (applyBasePatchCC s p) p = applyBasePatchCC s p := by
  simp only [applyBasePatchCC, getD_twice]

/-- Idempotence of the vendored `update_from_base_status`. -/
theorem update_base_cc_idem (s : NarwalStateCC) (v : PValue) :
    (s.update_from_base_status v).1.update_from_base_status v =
      s.update_from_base_status v := by
  rw [update_base_cc_char, update_base_cc_char, applyBasePatchCC_idem]

/-! ## Further helper lemmas -/

/-- A benign base-status payload produces no exception. -/
theorem basePatch_err_none (d : PDict) (hb : baseStatusBenign d = true) :
    (basePatch (.pdict d)).2 = none := by
  simp only [basePatch, basePatchStep47, basePatchStep3, basePatchStep2,
    basePatchTail]
  repeat' split
  all_goals first
    | rfl
    | (exfalso; simp_all [baseStatusBenign, guardedIntBenign, f3Benign,
        field2Benign, intCoercibleOpt, exceptIsOk, IntRes.isOk])

/-- A benign working-status payload produces no exception. -/
theorem workingPatch_err_none (d : PDict) (hw : workingStatusBenign d = true) :
    (workingPatch (.pdict d)).2 = none := by
  simp only [workingPatch, workingPatchStep13]
  repeat' split
  all_goals first
    | rfl
    | (exfalso; simp_all [workingStatusBenign, guardedIntBenign, pyIntCatching,
        intCoercibleOpt, exceptIsOk, IntRes.isOk])

/-- Re-applying the same `get_status(full_update=True)` response is a
no-op (consequence of `update_from_base_status` idempotence). -/
theorem getStatusFullApplyCC_idem (s : NarwalStateCC) (rd : PDict) :
    getStatusFullApplyCC (getStatusFullApplyCC s rd).1 rd =
      getStatusFullApplyCC s rd := by
  by_cases ht : truthy ((pget rd "2").getD (.pdict [])) = true
  · simp only [getStatusFullApplyCC, if_pos ht]
    exact update_base_cc_idem s _
  · simp only [getStatusFullApplyCC, if_neg ht]

/-! ## Claim theorems -/

/-- C1: the claim says that a full status query answered while the robot
is not broadcasting applies only the battery fields, so a broadcast
mode=docked followed by a non-broadcasting poll claiming mode=cleaning,
battery=85 must leave mode=docked and battery=85.  The code disagrees:
`_async_update_data` always calls `get_status(full_update=True)`, so on
that exact input the poll overwrites the authoritative DOCKED mode with
the stale CLEANING one (battery 85 is below the dock threshold 95, so no
deep-sleep correction runs).  This theorem evaluates the embedded poll
pipeline at the claimed input. -/
theorem c1_poll_overwrites_mode :
    ((initStateCC.update_from_base_status c1BroadcastPayload).1).working_status = .docked ∧
    ((initStateCC.update_from_base_status c1BroadcastPayload).1).battery_level = 80 ∧
    (pollCore false ((initStateCC.update_from_base_status c1BroadcastPayload).1)
        c1PollRespData none none 0 0).state.working_status = .cleaning ∧
    (pollCore false ((initStateCC.update_from_base_status c1BroadcastPayload).1)
        c1PollRespData none none 0 0).state.battery_level = 85 ∧
    (pollCore false ((initStateCC.update_from_base_status c1BroadcastPayload).1)
        c1PollRespData none none 0 0).raisedUpdateFailed = false := by decide

/-- C2: with the device not broadcasting, battery at or above the dock
threshold, and the full status query reporting a (stale) cleaning mode,
the poll triggers the deep-sleep correction, which issues the force-stop;
with the force-stop answered not-applicable and the re-query still
returning the same stale data, the final working mode is DOCKED, the
stale guard is armed for `STALE_GUARD_SECONDS`, and every broadcast
delivered before the guard deadline is dropped without changing the
published state. -/
theorem c2_trust_policy (s : NarwalStateCC) (respData : PDict)
    (r : CommandResponse) (now guard0 : ℚ)
    (hnow : 0 ≤ now)
    (_hna : r.not_applicable = true)
    (hclean : ((getStatusFullApplyCC s respData).1).working_status = .cleaning)
    (hbat : DOCK_BATTERY_THRESHOLD ≤ ((getStatusFullApplyCC s respData).1).battery_level)
    (hok : (getStatusFullApplyCC s respData).2 = none) :
    (pollCore false s respData (some r) (some respData) now guard0).issuedForceEnd = true ∧
    (pollCore false s respData (some r) (some respData) now guard0).state.working_status
      = .docked ∧
    (pollCore false s respData (some r) (some respData) now guard0).staleGuardUntil
      = now + STALE_GUARD_SECONDS ∧
    (∀ (c : CoordObs) (t : ℚ) (bst : NarwalStateCC),
      c.staleGuardUntil = now + STALE_GUARD_SECONDS →
      t < now + STALE_GUARD_SECONDS →
      onStateUpdate c t bst = c) := by
  rcases hG : getStatusFullApplyCC s respData with ⟨s1, e1⟩
  have hs1 : (getStatusFullApplyCC s respData).1 = s1 := by rw [hG]
  rw [hs1] at hclean hbat
  have he1 : e1 = none := by rw [hG] at hok; exact hok
  subst he1
  have hcond : (!false && decide (DOCK_BATTERY_THRESHOLD ≤ s1.battery_level) &&
      !inDockModes s1.working_status && !decide (s1.working_status = .unknown)) = true := by
    simp [hclean, hbat, inDockModes]
  have hre : getStatusFullApplyCC s1 respData = (s1, none) := by
    have := getStatusFullApplyCC_idem s respData
    rw [hG] at this
    simpa [hG] using this
  have hfix : fixDeepSleepState s1 (some r) (some respData) now guard0 =
      { state :=
          { s1 with
            working_status := WorkingStatus.docked
            is_paused := false
            is_returning_to_dock := false }
        staleGuardUntil := now + STALE_GUARD_SECONDS
        issuedForceEnd := true } := by
    simp only [fixDeepSleepState, hre]
    rw [if_neg]
    · simp [inCleaningModes, hclean]
    · simp [inDockModes, hclean]
  have hpoll : pollCore false s respData (some r) (some respData) now guard0 =
      { state :=
          { s1 with
            working_status := WorkingStatus.docked
            is_paused := false
            is_returning_to_dock := false }
        staleGuardUntil := now + STALE_GUARD_SECONDS
        issuedForceEnd := true
        raisedUpdateFailed := false } := by
    simp only [pollCore, hG, hcond, if_pos, hfix]
  refine ⟨by rw [hpoll], by rw [hpoll], by rw [hpoll], ?_⟩
  intro c t bst hc ht
  have hpos : 0 < c.staleGuardUntil := by
    rw [hc]; unfold STALE_GUARD_SECONDS; linarith
  have htc : t < c.staleGuardUntil := by rw [hc]; exact ht
  simp only [onStateUpdate, if_pos hpos, if_pos htc]

/-- C2 witness: a concrete verification round from the initial state with
a stale cleaning response at battery 100, force-stop answered
not-applicable, polled at monotonic time 0; a broadcast at time 5 is
dropped. -/
theorem c2_witness :
    (pollCore false initStateCC c2RespData (some ⟨2, [], []⟩) (some c2RespData)
      0 0).issuedForceEnd = true ∧
    (pollCore false initStateCC c2RespData (some ⟨2, [], []⟩) (some c2RespData)
      0 0).state.working_status = .docked ∧
    onStateUpdate ⟨(0 : ℚ) + STALE_GUARD_SECONDS, 0, POLL_INTERVAL, none⟩ 5 initStateCC =
      ⟨(0 : ℚ) + STALE_GUARD_SECONDS, 0, POLL_INTERVAL, none⟩ := by
  have h := c2_trust_policy initStateCC c2RespData ⟨2, [], []⟩ 0 0 (by norm_num)
    (by decide) (by decide) (by decide) (by decide)
  exact ⟨h.1, h.2.1,
    h.2.2.2 ⟨(0 : ℚ) + STALE_GUARD_SECONDS, 0, POLL_INTERVAL, none⟩ 5 initStateCC rfl
      (by unfold STALE_GUARD_SECONDS; norm_num)⟩

/-- C3 counterexample: the claim says the update methods never raise, but
`update_from_base_status` uses an unguarded `int()` on field 38 (a
non-numeric string raises `ValueError`) and `update_from_working_status`
on field 13 (`None` raises `TypeError`); moreover even the guarded
fields raise: an infinite float in field 11 makes `int()` raise
`OverflowError` straight through the `except (ValueError, TypeError)`
handler. -/
theorem c3_counterexample :
    (initState.update_from_base_status (.pdict [("38", .pstr "health")])).2 =
      some .valueError ∧
    (initState.update_from_working_status (.pdict [("13", .pnone)])).2 =
      some .typeError ∧
    (initState.update_from_base_status
      (.pdict [("11", .pfloat (.inf false))])).2 = some .overflowError ∧
    (initState.update_from_working_status
      (.pdict [("3", .pfloat (.inf false))])).2 = some .overflowError := by decide

/-- C3 amended: the update methods raise no exception on a decoded
mapping provided every field read through a guarded `int()` (base-status
fields 11, 47 and field-3 sub-fields 1, 10, 12, 3; working-status field
3) fails, if at all, only with the caught `ValueError`/`TypeError` — an
infinite float raises `OverflowError` through those guards — the
unguarded fields 38 and 36 (base) and 13 (working) are int-coercible
when present, and battery field 2 is not an infinity or NaN (as a float
or as a float32 bit pattern); every other field of any shape is handled
per-field. -/
theorem c3_amended (s : NarwalState) (d : PDict)
    (hb : baseStatusBenign d = true) (hw : workingStatusBenign d = true) :
    (s.update_from_base_status (.pdict d)).2 = none ∧
    (s.update_from_working_status (.pdict d)).2 = none := by
  rw [update_base_char, update_working_char]
  exact ⟨basePatch_err_none d hb, workingPatch_err_none d hw⟩

/-- C3 witness: a full benign payload (mode, float battery, health,
timestamp, numeric session) raises in neither update method. -/
theorem c3_amended_witness :
    baseStatusBenign c3WitnessPayload = true ∧
    workingStatusBenign c3WitnessPayload = true ∧
    (initState.update_from_base_status (.pdict c3WitnessPayload)).2 = none ∧
    (initState.update_from_working_status (.pdict c3WitnessPayload)).2 = none :=
  ⟨by decide, by decide,
   (c3_amended initState c3WitnessPayload (by decide) (by decide)).1,
   (c3_amended initState c3WitnessPayload (by decide) (by decide)).2⟩

/-- C4: the claim (is_cleaning false whenever is_paused or is_returning)
fails on the library state model at a state reachable in one update:
payload field 3 = (1: 4, 10: 2) — mode CLEANING, docking sub-state,
returning flag absent — yields a state with both `is_cleaning` and
`is_returning` true, because the `is_returning` fallback omits the
"not in a cleaning state" exclusion its own docstring describes (the
vendored copy excludes `is_cleaning` explicitly). -/
theorem c4_cleaning_and_returning :
    ((initState.update_from_base_status c4FailingPayload).1).is_cleaning = true ∧
    ((initState.update_from_base_status c4FailingPayload).1).is_returning = true ∧
    ((initState.update_from_base_status c4FailingPayload).1).is_paused = false ∧
    (initState.update_from_base_status c4FailingPayload).2 = none := by decide

/-- C5 counterexample: a reachable STANDBY state with dock_activity = 2
and no other dock signal has `is_docked = true`, falsifying the claimed
"if and only if one of dock_sub_state/field 11/field 47 agrees". -/
theorem c5_counterexample :
    ((initState.update_from_base_status c5Payload).1).working_status = .standby ∧
    ((initState.update_from_base_status c5Payload).1).is_docked = true ∧
    ¬ (((initState.update_from_base_status c5Payload).1).dock_sub_state = 1 ∨
       ((initState.update_from_base_status c5Payload).1).dock_field11 = 2 ∨
       ((initState.update_from_base_status c5Payload).1).dock_field47 = 3) := by decide

/-- C5 amended: `is_docked` is true unconditionally for mode DOCKED or
CHARGED, and for mode STANDBY exactly when at least one of the four dock
signals agrees: dock_sub_state = 1, dock_activity > 0, field 11 = 2, or
field 47 = 3. -/
theorem c5_amended (s : NarwalState) :
    (inDockModes s.working_status = true → s.is_docked = true) ∧
    (s.working_status = .standby →
      (s.is_docked = true ↔
        (s.dock_sub_state = 1 ∨ 0 < s.dock_activity ∨
         s.dock_field11 = 2 ∨ s.dock_field47 = 3))) := by
  constructor
  · intro h; simp [NarwalState.is_docked, h]
  · intro h
    simp [NarwalState.is_docked, h, inDockModes, or_assoc]

/-- C5 witness: a STANDBY state with only field 47 = 3 is docked, via the
amended equivalence. -/
theorem c5_amended_witness :
    ((initState.update_from_base_status c5WPayload).1).is_docked = true :=
  ((c5_amended _).2 (by decide)).mpr (by decide)

/-- C6 counterexample: for a response whose field 1 holds non-integer
bytes, `send_command` produces result code 0, whose `success` predicate
is false (SUCCESS is 1) — falsifying "counts as an implicit success (its
success predicate holds)". -/
theorem c6_counterexample :
    (pyToInt (.pbytes [81, 111, 69, 115])).isOk = false ∧
    extractCommandResponse [("1", .pbytes [81, 111, 69, 115])] [] =
      .ok { result_code := 0, data := [("1", .pbytes [81, 111, 69, 115])],
            raw_payload := [] } ∧
    CommandResponse.success
      { result_code := 0, data := [("1", .pbytes [81, 111, 69, 115])],
        raw_payload := [] } = false :=
  ⟨by decide, rfl, by decide⟩

/-- C6 amended: when field 1 of the decoded response coerces to an
integer, `send_command` returns a response whose result code is that
integer; when the coercion fails with a caught `ValueError`/`TypeError`
(non-numeric string or bytes data), it returns result code 0 — distinct
from both the SUCCESS (1) and NOT_APPLICABLE (2) constants, so neither
predicate holds — with the decoded mapping, including field 1, available
as `data`; and when the coercion fails outside those classes (an
infinite float raising `OverflowError`), the exception propagates out of
`send_command` instead of producing a response. -/
theorem c6_amended (d : PDict) (p : List Nat) :
    (∀ v n, pget d "1" = some v → pyToInt v = .ok n →
      extractCommandResponse d p =
        .ok { result_code := n, data := d, raw_payload := p }) ∧
    (∀ v e, pget d "1" = some v → pyToInt v = .err e → intCaught e = true →
      extractCommandResponse d p =
        .ok { result_code := 0, data := d, raw_payload := p } ∧
      CommandResponse.success { result_code := 0, data := d, raw_payload := p }
        = false ∧
      CommandResponse.not_applicable
        { result_code := 0, data := d, raw_payload := p } = false) ∧
    (∀ v e, pget d "1" = some v → pyToInt v = .err e → intCaught e = false →
      extractCommandResponse d p = .error e) := by
  refine ⟨?_, ?_, ?_⟩
  · intro v n hv hn
    simp [extractCommandResponse, hv, hn]
  · intro v e hv he hc
    exact ⟨by simp [extractCommandResponse, hv, he, hc], rfl, rfl⟩
  · intro v e hv he hc
    simp [extractCommandResponse, hv, he, hc]

/-- C6 witness: field 1 = 2 yields result code 2; field 1 = b"a" yields
the implicit code-0 response whose success predicate is false; field 1 =
float("inf") makes the extraction raise `OverflowError`. -/
theorem c6_amended_witness :
    extractCommandResponse [("1", PValue.pint 2)] [] =
      .ok { result_code := 2, data := [("1", PValue.pint 2)], raw_payload := [] } ∧
    CommandResponse.success
      { result_code := 0, data := [("1", PValue.pbytes [97])],
        raw_payload := [] } = false ∧
    extractCommandResponse [("1", PValue.pfloat (.inf false))] [] =
      .error .overflowError :=
  ⟨(c6_amended [("1", PValue.pint 2)] []).1 _ 2 rfl rfl,
   ((c6_amended [("1", PValue.pbytes [97])] []).2.1 _ .valueError rfl (by decide)
      rfl).2.1,
   (c6_amended [("1", PValue.pfloat (.inf false))] []).2.2 _ .overflowError rfl
     rfl rfl⟩

/-- C7: for every topic whose UTF-8 encoding has 1 to 255 bytes and every
payload, building a frame (auto header) succeeds and parsing it back
returns exactly the original topic and payload. -/
theorem c7_roundtrip (topic payload : List Nat)
    (hlen1 : 1 ≤ topic.length) (hlen2 : topic.length ≤ 255)
    (hutf : isValidUtf8 topic = true) :
    ∃ frame msg, buildFrame topic payload none = .ok frame ∧
      parseFrame frame = .ok msg ∧ msg.topic = topic ∧ msg.payload = payload := by
  have hne : ¬ (topic.length = 0) := by omega
  have hgt : ¬ (255 < topic.length) := by omega
  have hb : buildFrame topic payload none =
      .ok (FRAME_TYPE_BYTE :: (topic.length + 2) % 256 :: PROTOBUF_FIELD_TAG ::
        topic.length :: (topic ++ payload)) := by
    simp only [buildFrame, if_neg hne, if_neg hgt, Option.getD]
  have hlen : ¬ ((topic ++ payload).length < topic.length) := by
    simp only [List.length_append]; omega
  have hp : parseFrame (FRAME_TYPE_BYTE :: (topic.length + 2) % 256 ::
      PROTOBUF_FIELD_TAG :: topic.length :: (topic ++ payload)) =
      .ok ⟨topic, payload, (topic.length + 2) % 256, PROTOBUF_FIELD_TAG,
        FRAME_TYPE_BYTE :: (topic.length + 2) % 256 :: PROTOBUF_FIELD_TAG ::
        topic.length :: (topic ++ payload)⟩ := by
    simp only [parseFrame, List.take_left, List.drop_left, if_neg hlen]
    simp [FRAME_TYPE_BYTE, PROTOBUF_FIELD_TAG, PROTOBUF_FIELD5_TAG, hutf]
  exact ⟨_, _, hb, hp, rfl, rfl⟩

/-- C7 witness: the round trip at topic "/a/b" (bytes 47 97 47 98) with a
two-byte payload. -/
theorem c7_witness :
    1 ≤ ([47, 97, 47, 98] : List Nat).length ∧
    ([47, 97, 47, 98] : List Nat).length ≤ 255 ∧
    isValidUtf8 [47, 97, 47, 98] = true ∧
    (∃ frame msg, buildFrame [47, 97, 47, 98] [8, 1] none = .ok frame ∧
      parseFrame frame = .ok msg ∧ msg.topic = [47, 97, 47, 98] ∧
      msg.payload = [8, 1]) :=
  ⟨by decide, by decide, by decide,
    c7_roundtrip [47, 97, 47, 98] [8, 1] (by decide) (by decide) (by decide)⟩

/-- C8 counterexample: for a 254-byte topic the auto header byte is
`(254 + 2) & 0xFF = 0`, not 256, so the claim "byte 1 equals topic
length plus 2" fails at lengths 254 and 255. -/
theorem c8_counterexample :
    buildFrame (List.replicate 254 97) [] none =
      .ok (FRAME_TYPE_BYTE :: 0 :: PROTOBUF_FIELD_TAG :: 254 :: List.replicate 254 97) ∧
    (List.replicate 254 97 : List Nat).length + 2 = 256 ∧ (0 : Nat) ≠ 256 := by
  refine ⟨rfl, by decide, by decide⟩

/-- C8 amended: for every valid topic (1 to 255 bytes), byte 1 of the
frame built without an explicit header byte equals the topic's byte
length plus 2, reduced modulo 256. -/
theorem c8_amended (topic payload : List Nat)
    (hlen1 : 1 ≤ topic.length) (hlen2 : topic.length ≤ 255) :
    ∃ frame, buildFrame topic payload none = .ok frame ∧
      frame[1]? = some ((topic.length + 2) % 256) := by
  have hne : ¬ (topic.length = 0) := by omega
  have hgt : ¬ (255 < topic.length) := by omega
  have hb : buildFrame topic payload none =
      .ok (FRAME_TYPE_BYTE :: (topic.length + 2) % 256 :: PROTOBUF_FIELD_TAG ::
        topic.length :: (topic ++ payload)) := by
    simp only [buildFrame, if_neg hne, if_neg hgt, Option.getD]
  exact ⟨_, hb, rfl⟩

/-- C8 witness: a two-byte topic gets header byte 4. -/
theorem c8_amended_witness :
    ∃ frame, buildFrame [47, 97] [] none = .ok frame ∧ frame[1]? = some 4 :=
  c8_amended [47, 97] [] (by decide) (by decide)

/-- C9: `parse_frame` raises `ProtocolError` on every buffer shorter than
4 bytes (short-frame error); on every 4-byte-or-longer buffer whose byte
0 differs from the frame-type constant (frame-type error); on every such
buffer whose byte 2 is neither recognized field marker (field-tag error
once the frame-type check passes); and on every buffer whose declared
topic length exceeds the remaining bytes (truncation error once the
earlier checks pass). -/
theorem c9_errors :
    (∀ data : List Nat, data.length < 4 → parseFrame data = .error .shortFrame) ∧
    (∀ b0 b1 b2 b3 : Nat, ∀ rest : List Nat, b0 ≠ FRAME_TYPE_BYTE →
      parseFrame (b0 :: b1 :: b2 :: b3 :: rest) = .error .badFrameType) ∧
    (∀ b0 b1 b2 b3 : Nat, ∀ rest : List Nat,
      b2 ≠ PROTOBUF_FIELD_TAG → b2 ≠ PROTOBUF_FIELD5_TAG →
      (∃ e, parseFrame (b0 :: b1 :: b2 :: b3 :: rest) = .error e) ∧
      (b0 = FRAME_TYPE_BYTE →
        parseFrame (b0 :: b1 :: b2 :: b3 :: rest) = .error .badFieldTag)) ∧
    (∀ b0 b1 b2 b3 : Nat, ∀ rest : List Nat, rest.length < b3 →
      (∃ e, parseFrame (b0 :: b1 :: b2 :: b3 :: rest) = .error e) ∧
      (b0 = FRAME_TYPE_BYTE → (b2 = PROTOBUF_FIELD_TAG ∨ b2 = PROTOBUF_FIELD5_TAG) →
        parseFrame (b0 :: b1 :: b2 :: b3 :: rest) = .error .truncated)) := by
  refine ⟨?_, ?_, ?_, ?_⟩
  · intro data h
    match data with
    | [] => rfl
    | [_] => rfl
    | [_, _] => rfl
    | [_, _, _] => rfl
    | _ :: _ :: _ :: _ :: _ => simp [List.length_cons] at h; omega
  · intro b0 b1 b2 b3 rest h
    simp only [parseFrame, if_pos h]
  · intro b0 b1 b2 b3 rest h2 h5
    constructor
    · by_cases hb0 : b0 ≠ FRAME_TYPE_BYTE
      · exact ⟨.badFrameType, by simp only [parseFrame, if_pos hb0]⟩
      · refine ⟨.badFieldTag, ?_⟩
        simp only [parseFrame, if_neg hb0]
        rw [if_pos]
        simp [h2, h5]
    · intro hb0
      have hb0n : ¬ (b0 ≠ FRAME_TYPE_BYTE) := by simp [hb0]
      simp only [parseFrame, if_neg hb0n]
      rw [if_pos]
      simp [h2, h5]
  · intro b0 b1 b2 b3 rest h
    constructor
    · by_cases hb0 : b0 ≠ FRAME_TYPE_BYTE
      · exact ⟨.badFrameType, by simp only [parseFrame, if_pos hb0]⟩
      · by_cases hm : (decide (b2 ≠ PROTOBUF_FIELD_TAG) &&
            decide (b2 ≠ PROTOBUF_FIELD5_TAG)) = true
        · refine ⟨.badFieldTag, ?_⟩
          simp only [parseFrame, if_neg hb0]
          rw [if_pos hm]
        · refine ⟨.truncated, ?_⟩
          simp only [parseFrame, if_neg hb0]
          rw [if_neg (by simpa using hm), if_pos h]
    · intro hb0 hm
      have hb0n : ¬ (b0 ≠ FRAME_TYPE_BYTE) := by simp [hb0]
      have hmn : ¬ ((decide (b2 ≠ PROTOBUF_FIELD_TAG) &&
          decide (b2 ≠ PROTOBUF_FIELD5_TAG)) = true) := by
        rcases hm with h | h <;> simp [h]
      simp only [parseFrame, if_neg hb0n, if_neg hmn, if_pos h]

/-- C9 witness: one concrete buffer per failure class. -/
theorem c9_witness :
    parseFrame [1, 2] = .error .shortFrame ∧
    parseFrame [0, 0, 34, 0] = .error .badFrameType ∧
    parseFrame [1, 0, 0, 0] = .error .badFieldTag ∧
    parseFrame [1, 0, 34, 5] = .error .truncated :=
  ⟨c9_errors.1 [1, 2] (by decide),
   c9_errors.2.1 0 0 34 0 [] (by decide),
   (c9_errors.2.2.1 1 0 0 0 [] (by decide) (by decide)).2 rfl,
   (c9_errors.2.2.2 1 0 34 5 [] (by decide)).2 rfl (Or.inl rfl)⟩

/-- C10: applying the same decoded status payload twice through
`update_from_base_status` — in the library version and in the vendored
version — yields exactly the same device state (and exception outcome)
as applying it once, from any starting state. -/
theorem c10_idempotent (s : NarwalState) (sc : NarwalStateCC) (d : PDict) :
    ((s.update_from_base_status (.pdict d)).1.update_from_base_status (.pdict d) =
      s.update_from_base_status (.pdict d)) ∧
    ((sc.update_from_base_status (.pdict d)).1.update_from_base_status (.pdict d) =
      sc.update_from_base_status (.pdict d)) :=
  ⟨update_base_idem s _, update_base_cc_idem sc _⟩

end Narwal
